import Mathlib

/-!
Verification development for the PodSearch repository.

The TypeScript data model is embedded as Lean structures (interfaces from
`src/podsearch-frontend/src/types/api.ts` and `src/client/src/types/api.ts`),
the zustand store actions from `src/podsearch-frontend/src/store/useStore.ts`
as pure state-transition functions, and the workspace page logic from the two
`app/workspace/[videoId]/page.tsx` files as pure functions.  The backend RAG
and fact-verification services are not part of the repository snapshot (only
their READMEs and their HTTP types are); where a claim depends on them, the
corresponding operation is modelled from the specification, as flagged in the
doc comment of each such definition.

JavaScript numbers are modelled as `ℚ` (plus an explicit NaN case where the
code tests for NaN), integers used as indices or counters as `ℕ`, optional
fields as `Option`, and `Record<string, any>` metadata as association lists
of strings.
-/

namespace PodSearch

/-- Clamp a rational to the closed interval [0,1]. -/
def clamp01 (q : ℚ) : ℚ := max 0 (min 1 q)

theorem clamp01_nonneg (q : ℚ) : 0 ≤ clamp01 q := le_max_left 0 _

theorem clamp01_le_one (q : ℚ) : clamp01 q ≤ 1 :=
  max_le (by norm_num) (min_le_left 1 q)

/-! ## Data model (from `src/podsearch-frontend/src/types/api.ts`) -/

/-- `YouTubeVideo` from `types/api.ts`. -/
structure YouTubeVideo where
  id : String
  title : String
  duration : Option ℚ
  view_count : Option ℚ
  upload_date : Option String
  uploader : Option String
  description : Option String
  thumbnail_url : Option String
  available_languages : List String
  has_captions : Bool
  url : String
  deriving DecidableEq, Repr

/-- `TranscriptSegment` from `types/api.ts`. -/
structure TranscriptSegment where
  text : String
  timestamp : Option ℚ
  deriving DecidableEq, Repr

/-- `RAGSearchResult` from `types/api.ts`; `metadata : Record<string, any>` is
modelled as an association list of strings. -/
structure RAGSearchResult where
  text : String
  timestamp : Option ℚ
  segment_index : ℕ
  relevance_score : ℚ
  metadata : List (String × String)
  deriving DecidableEq, Repr

/-- The four-value literal union `VerificationStatus` from
`src/podsearch-frontend/src/types/api.ts` line 95. -/
inductive VerificationStatus where
  | verified
  | partiallyVerified
  | falseClaim
  | unclear
  deriving DecidableEq, Repr

/-- The literal string each `VerificationStatus` constructor stands for in
the TypeScript union type. -/
def VerificationStatus.label : VerificationStatus → String
  | verified => "✅ Verified"
  | partiallyVerified => "⚠️ Partially Verified"
  | falseClaim => "❌ False"
  | unclear => "🔍 Unclear/Insufficient Evidence"

/-- `SourceType` from `types/api.ts` line 97. -/
inductive SourceType where
  | wikipedia
  | pubmed
  | semanticScholar
  | news
  | searchEngine
  | academic
  deriving DecidableEq, Repr

/-- `VerificationSource` from `types/api.ts` lines 99-107. -/
structure VerificationSource where
  title : String
  url : String
  source_type : SourceType
  relevance_score : ℚ
  excerpt : String
  publication_date : Option String
  author : Option String
  deriving DecidableEq, Repr

/-- `ClaimVerification` from `types/api.ts` lines 109-117. -/
structure ClaimVerification where
  claim : String
  status : VerificationStatus
  confidence : ℚ
  explanation : String
  sources : List VerificationSource
  verification_date : String
  agent_reasoning : String
  deriving DecidableEq, Repr

/-- `FactVerificationRequest` from `types/api.ts` lines 119-126: exactly the
fields `claims`, `video_id?`, `context?`, `search_depth`, `include_academic`,
`include_news`. -/
structure FactVerificationRequest where
  claims : List String
  video_id : Option String
  context : Option String
  search_depth : ℕ
  include_academic : Bool
  include_news : Bool
  deriving DecidableEq, Repr

/-- `FactVerificationResponse` from `types/api.ts` lines 128-134. -/
structure FactVerificationResponse where
  success : Bool
  verifications : List ClaimVerification
  total_claims : ℕ
  processing_time : ℚ
  error : Option String
  deriving DecidableEq, Repr

/-- `RAGProcessResponse` from `types/api.ts` lines 75-81. -/
structure RAGProcessResponse where
  success : Bool
  video_id : String
  chunks_stored : Option ℕ
  collection_name : Option String
  error : Option String
  deriving DecidableEq, Repr

/-- `RAGGenerateRequest` from `types/api.ts` lines 56-59. -/
structure RAGGenerateRequest where
  query : String
  top_k : ℕ
  deriving DecidableEq, Repr

/-- `RAGGenerateResponse` from `types/api.ts` lines 61-69. -/
structure RAGGenerateResponse where
  success : Bool
  query : String
  video_id : String
  answer : String
  sources : List RAGSearchResult
  retrieval_only : Bool
  error : Option String
  deriving DecidableEq, Repr

/-- Message author tag of `ChatMessage.type`. -/
inductive MsgType where
  | user
  | assistant
  deriving DecidableEq, Repr

/-- `ChatMessage` from `types/api.ts` lines 181-189; the `Date` timestamp is
modelled as milliseconds since the epoch. -/
structure ChatMessage where
  id : String
  type : MsgType
  content : String
  timestamp : ℕ
  sources : Option (List RAGSearchResult)
  factCheck : Option (List ClaimVerification)
  isTyping : Option Bool
  deriving DecidableEq, Repr

/-! ## Store state (from `src/podsearch-frontend/src/store/useStore.ts`) -/

/-- `SearchState` from `types/api.ts`. -/
structure SearchState where
  query : String
  results : List YouTubeVideo
  loading : Bool
  error : Option String
  deriving DecidableEq, Repr

/-- `WorkspaceState` from `types/api.ts` lines 170-179. -/
structure WorkspaceState where
  currentVideo : Option YouTubeVideo
  transcript : List TranscriptSegment
  isProcessing : Bool
  isProcessed : Bool
  ragReady : Bool
  chatMessages : List ChatMessage
  factChecking : Bool
  currentFactCheck : Option (List ClaimVerification)
  deriving DecidableEq, Repr

/-- The theme union of `AppState.ui.theme`. -/
inductive Theme where
  | light
  | dark
  deriving DecidableEq, Repr

/-- `AppState.ui.currentPlayer` from `useStore.ts`. -/
structure PlayerState where
  isPlaying : Bool
  currentTime : ℚ
  duration : ℚ
  deriving DecidableEq, Repr

/-- `AppState.ui` from `useStore.ts`. -/
structure UIState where
  theme : Theme
  sidebarOpen : Bool
  currentPlayer : PlayerState
  deriving DecidableEq, Repr

/-- An element of `AppState.savedInsights` from `useStore.ts` lines 51-60. -/
structure SavedInsight where
  id : String
  videoId : String
  videoTitle : String
  query : String
  answer : String
  sources : List RAGSearchResult
  factCheck : Option (List ClaimVerification)
  timestamp : String
  deriving DecidableEq, Repr

/-- The data portion of the zustand `AppState` (the action closures are
modelled below as functions on this state). -/
structure AppState where
  search : SearchState
  workspace : WorkspaceState
  ui : UIState
  savedInsights : List SavedInsight
  deriving DecidableEq, Repr

/-- `initialSearchState` from `useStore.ts` lines 66-71. -/
def initialSearchState : SearchState :=
  { query := "", results := [], loading := false, error := none }

/-- `initialWorkspaceState` from `useStore.ts` lines 73-82. -/
def initialWorkspaceState : WorkspaceState :=
  { currentVideo := none, transcript := [], isProcessing := false,
    isProcessed := false, ragReady := false, chatMessages := [],
    factChecking := false, currentFactCheck := none }

/-- The initial `ui` object from `useStore.ts` lines 145-153. -/
def initialUIState : UIState :=
  { theme := Theme.light, sidebarOpen := false,
    currentPlayer := { isPlaying := false, currentTime := 0, duration := 0 } }

/-- The store's initial state (`savedInsights` starts empty). -/
def initialAppState : AppState :=
  { search := initialSearchState, workspace := initialWorkspaceState,
    ui := initialUIState, savedInsights := [] }

/-- The argument of `addChatMessage`: `Omit<ChatMessage, 'id' | 'timestamp'>`. -/
structure NewChatMessage where
  type : MsgType
  content : String
  sources : Option (List RAGSearchResult)
  factCheck : Option (List ClaimVerification)
  isTyping : Option Bool
  deriving DecidableEq, Repr

/-- The message object `addChatMessage` builds: the given fields plus
`id: Date.now().toString()` and `timestamp: new Date()` (`useStore.ts`
lines 113-117); `now` is the current time in epoch milliseconds. -/
def mkChatMessage (message : NewChatMessage) (now : ℕ) : ChatMessage :=
  { id := toString now, type := message.type, content := message.content,
    timestamp := now, sources := message.sources,
    factCheck := message.factCheck, isTyping := message.isTyping }

/-- `addChatMessage` from `useStore.ts` lines 112-124. -/
def addChatMessage (message : NewChatMessage) (now : ℕ) (s : AppState) : AppState :=
  { s with workspace :=
      { s.workspace with
        chatMessages := s.workspace.chatMessages ++ [mkChatMessage message now] } }

/-- The argument of `updateLastMessage`: `Partial<ChatMessage>`.  An outer
`Option` marks whether the key is present in the partial object. -/
structure ChatMessageUpdate where
  id : Option String := none
  type : Option MsgType := none
  content : Option String := none
  timestamp : Option ℕ := none
  sources : Option (Option (List RAGSearchResult)) := none
  factCheck : Option (Option (List ClaimVerification)) := none
  isTyping : Option (Option Bool) := none
  deriving DecidableEq, Repr

/-- The JavaScript spread `{ ...m, ...u }`: every key present in `u`
overrides the corresponding field of `m`. -/
def ChatMessage.merge (m : ChatMessage) (u : ChatMessageUpdate) : ChatMessage :=
  { id := u.id.getD m.id, type := u.type.getD m.type,
    content := u.content.getD m.content,
    timestamp := u.timestamp.getD m.timestamp,
    sources := u.sources.getD m.sources,
    factCheck := u.factCheck.getD m.factCheck,
    isTyping := u.isTyping.getD m.isTyping }

/-- The in-place update `messages[messages.length - 1] = {...last, ...updates}`
of `updateLastMessage`, guarded by `messages.length > 0`, rendered as a
recursive function that rewrites the final element only. -/
def updateLast (u : ChatMessageUpdate) : List ChatMessage → List ChatMessage
  | [] => []
  | [m] => [m.merge u]
  | m :: m' :: rest => m :: updateLast u (m' :: rest)

/-- `updateLastMessage` from `useStore.ts` lines 125-135. -/
def updateLastMessage (u : ChatMessageUpdate) (s : AppState) : AppState :=
  { s with workspace :=
      { s.workspace with chatMessages := updateLast u s.workspace.chatMessages } }

/-- The argument of `addSavedInsight`: the insight minus `id` and `timestamp`. -/
structure NewSavedInsight where
  videoId : String
  videoTitle : String
  query : String
  answer : String
  sources : List RAGSearchResult
  factCheck : Option (List ClaimVerification)
  deriving DecidableEq, Repr

/-- The insight object `addSavedInsight` builds (`useStore.ts` lines 166-170):
`id: Date.now().toString()`, `timestamp: new Date().toISOString()`; `now` is
the epoch-millisecond clock and `iso` its ISO rendering. -/
def mkSavedInsight (ins : NewSavedInsight) (now : ℕ) (iso : String) : SavedInsight :=
  { id := toString now, videoId := ins.videoId, videoTitle := ins.videoTitle,
    query := ins.query, answer := ins.answer, sources := ins.sources,
    factCheck := ins.factCheck, timestamp := iso }

/-- `addSavedInsight` from `useStore.ts` lines 165-174: prepends the new
insight. -/
def addSavedInsight (ins : NewSavedInsight) (now : ℕ) (iso : String)
    (s : AppState) : AppState :=
  { s with savedInsights := mkSavedInsight ins now iso :: s.savedInsights }

/-- `removeSavedInsight` from `useStore.ts` lines 175-178: keeps exactly the
insights whose `id` differs from the given one. -/
def removeSavedInsight (id : String) (s : AppState) : AppState :=
  { s with savedInsights := s.savedInsights.filter (fun i => i.id ≠ id) }

/-- `clearSavedInsights` from `useStore.ts` line 179. -/
def clearSavedInsights (s : AppState) : AppState :=
  { s with savedInsights := [] }

theorem updateLast_nil (u : ChatMessageUpdate) : updateLast u [] = [] := rfl

theorem updateLast_append_singleton (u : ChatMessageUpdate)
    (ms : List ChatMessage) (m : ChatMessage) :
    updateLast u (ms ++ [m]) = ms ++ [m.merge u] := by
  induction ms with
  | nil => rfl
  | cons a ms ih =>
    cases ms with
    | nil => rfl
    | cons b ms => simpa [updateLast] using ih

/-- C8: `addChatMessage` appends exactly one message, preserving all
existing ones; `updateLastMessage` on an empty chat leaves the entire store
state unchanged, and otherwise merges the updates into the final message
only, keeping every earlier message and every other field of the store. -/
theorem addChatMessage_appends_and_updateLastMessage_frames
    (message : NewChatMessage) (now : ℕ) (u : ChatMessageUpdate)
    (s : AppState) :
    (addChatMessage message now s).workspace.chatMessages
        = s.workspace.chatMessages ++ [mkChatMessage message now]
    ∧ (s.workspace.chatMessages = [] → updateLastMessage u s = s)
    ∧ (∀ ms m, s.workspace.chatMessages = ms ++ [m] →
        updateLastMessage u s
          = { s with workspace :=
                { s.workspace with chatMessages := ms ++ [m.merge u] } }) := by
  refine ⟨rfl, ?_, ?_⟩
  · intro h
    show ({ s with workspace :=
      { s.workspace with chatMessages := updateLast u s.workspace.chatMessages } }
        : AppState) = s
    rw [h, updateLast_nil, ← h]
  · intro ms m h
    show ({ s with workspace :=
      { s.workspace with chatMessages := updateLast u s.workspace.chatMessages } }
        : AppState) = _
    rw [h, updateLast_append_singleton]

theorem addChatMessage_appends_witness :
    (initialAppState.workspace.chatMessages = [] →
      updateLastMessage { content := some "hi" } initialAppState = initialAppState)
    ∧ updateLastMessage { content := some "hi" } initialAppState = initialAppState :=
  have h := addChatMessage_appends_and_updateLastMessage_frames
    { type := MsgType.user, content := "q", sources := none,
      factCheck := none, isTyping := none }
    7 { content := some "hi" } initialAppState
  ⟨h.2.1, h.2.1 rfl⟩

/-- C9: `addSavedInsight` prepends, so `savedInsights` is newest-first;
`removeSavedInsight id` keeps exactly the insights with a different id, in
order; and removing a just-added insight's id restores the previous list
whenever the ids are pairwise distinct after the add. -/
theorem savedInsights_prepend_remove_roundTrip
    (ins : NewSavedInsight) (now : ℕ) (iso : String) (id : String)
    (s : AppState) :
    (addSavedInsight ins now iso s).savedInsights
        = mkSavedInsight ins now iso :: s.savedInsights
    ∧ (removeSavedInsight id s).savedInsights
        = s.savedInsights.filter (fun i => i.id ≠ id)
    ∧ (((addSavedInsight ins now iso s).savedInsights.map SavedInsight.id).Nodup →
        (removeSavedInsight (mkSavedInsight ins now iso).id
            (addSavedInsight ins now iso s)).savedInsights = s.savedInsights) := by
  refine ⟨rfl, rfl, ?_⟩
  intro hnodup
  show (mkSavedInsight ins now iso :: s.savedInsights).filter
      (fun i => i.id ≠ (mkSavedInsight ins now iso).id) = s.savedInsights
  have hmem : (mkSavedInsight ins now iso).id ∉ s.savedInsights.map SavedInsight.id := by
    have h' : ((mkSavedInsight ins now iso).id ::
        s.savedInsights.map SavedInsight.id).Nodup := by
      simpa [addSavedInsight] using hnodup
    exact (List.nodup_cons.mp h').1
  rw [List.filter_cons_of_neg (by simp)]
  rw [List.filter_eq_self]
  intro a ha
  simp only [ne_eq, decide_eq_true_eq]
  intro hEq
  exact hmem (hEq ▸ List.mem_map_of_mem SavedInsight.id ha)

theorem savedInsights_roundTrip_witness :
    (removeSavedInsight
        (mkSavedInsight
          { videoId := "v1", videoTitle := "t", query := "q", answer := "a",
            sources := [], factCheck := none } 7 "2024-01-01").id
        (addSavedInsight
          { videoId := "v1", videoTitle := "t", query := "q", answer := "a",
            sources := [], factCheck := none } 7 "2024-01-01"
          initialAppState)).savedInsights
      = initialAppState.savedInsights :=
  (savedInsights_prepend_remove_roundTrip
      { videoId := "v1", videoTitle := "t", query := "q", answer := "a",
        sources := [], factCheck := none } 7 "2024-01-01" "x"
      initialAppState).2.2 (by simp [addSavedInsight, initialAppState])

/-! ## Timestamp rendering (from `src/client/src/app/workspace/[videoId]/page.tsx`) -/

/-- `n.toString().padStart(2, '0')` (the `pad2` helper of `renderAnswer`). -/
def pad2 (n : ℕ) : String :=
  let s := toString n
  if s.length < 2 then String.mk (List.replicate (2 - s.length) '0') ++ s else s

/-- One match of the timestamp regex of `renderAnswer`
(`[H:MM:SS]`, `(H:MM:SS)`, `[M:SS]` or `(M:SS)`): the parsed capture
groups, with `hoursRaw = none` when the hours group is absent. -/
structure TsMatch where
  hoursRaw : Option ℕ
  minutesRaw : ℕ
  secondsRaw : ℕ
  deriving DecidableEq, Repr

/-- The hour/minute normalisation of `renderAnswer` (page.tsx lines 315-322):
`hours = hoursRaw ?? 0`, and when no hours group matched and `minutes >= 60`,
carry the excess minutes into hours. -/
def tsComponents (m : TsMatch) : ℕ × ℕ :=
  let hours := m.hoursRaw.getD 0
  let minutes := m.minutesRaw
  if m.hoursRaw = none ∧ 60 ≤ minutes then (minutes / 60, minutes % 60)
  else (hours, minutes)

/-- `totalSeconds = hours * 3600 + minutes * 60 + seconds` (page.tsx line 324),
computed on the normalised components. -/
def tsTotalSeconds (m : TsMatch) : ℕ :=
  (tsComponents m).1 * 3600 + (tsComponents m).2 * 60 + m.secondsRaw

/-- The `[H:MM:SS]` display form with a given hours, minutes and seconds
part (minutes and seconds zero-padded to two digits). -/
def hmsLabel (h mm ss : ℕ) : String :=
  "[" ++ toString h ++ ":" ++ pad2 mm ++ ":" ++ pad2 ss ++ "]"

/-- The label rendered for a matched timestamp (page.tsx lines 325-327):
`[h:MM:SS]` when the normalised hours part is positive, else `[M:SS]`. -/
def tsLabel (m : TsMatch) : String :=
  let c := tsComponents m
  if 0 < c.1 then hmsLabel c.1 c.2 m.secondsRaw
  else "[" ++ toString c.2 ++ ":" ++ pad2 m.secondsRaw ++ "]"

/-- A JavaScript number as tested by `jumpToTimestamp`: either a rational
value or `NaN`. -/
inductive JSNum where
  | num (q : ℚ)
  | nan
  deriving DecidableEq, Repr

/-- The guard of `jumpToTimestamp` (page.tsx lines 274-295): a negative or
NaN timestamp returns immediately with no seek; otherwise the function
requests a seek to the given position (immediately when the player is ready,
else recorded as the pending seek). -/
def jumpToTimestamp (t : JSNum) : Option ℚ :=
  match t with
  | JSNum.nan => none
  | JSNum.num q => if q < 0 then none else some q

/-- C10: every matched timestamp token seeks to
`H*3600 + M*60 + S` seconds; a `[M:SS]` token with `M ≥ 60` is rendered with
hours `⌊M/60⌋` and minutes `M mod 60`; and `jumpToTimestamp` performs no seek
on a negative or NaN timestamp. -/
theorem tsMatch_seek_label_and_jump_guard (m : TsMatch) (q : ℚ) :
    tsTotalSeconds m
        = m.hoursRaw.getD 0 * 3600 + m.minutesRaw * 60 + m.secondsRaw
    ∧ (m.hoursRaw = none → 60 ≤ m.minutesRaw →
        tsLabel m = hmsLabel (m.minutesRaw / 60) (m.minutesRaw % 60) m.secondsRaw)
    ∧ jumpToTimestamp JSNum.nan = none
    ∧ (q < 0 → jumpToTimestamp (JSNum.num q) = none) := by
  refine ⟨?_, ?_, rfl, ?_⟩
  · unfold tsTotalSeconds tsComponents
    by_cases h : m.hoursRaw = none ∧ 60 ≤ m.minutesRaw
    · rw [if_pos h, h.1]
      simp only [Option.getD_none]
      omega
    · rw [if_neg h]
  · intro h1 h2
    have hc : tsComponents m = (m.minutesRaw / 60, m.minutesRaw % 60) := by
      unfold tsComponents
      rw [if_pos ⟨h1, h2⟩]
    unfold tsLabel
    rw [hc]
    have hpos : 0 < m.minutesRaw / 60 := by omega
    rw [if_pos hpos]
  · intro h
    show (if q < 0 then none else some q) = none
    rw [if_pos h]

theorem tsMatch_seek_label_witness :
    tsLabel { hoursRaw := none, minutesRaw := 75, secondsRaw := 5 }
        = hmsLabel (75 / 60) (75 % 60) 5
    ∧ jumpToTimestamp (JSNum.num (-3)) = none :=
  have h := tsMatch_seek_label_and_jump_guard
    { hoursRaw := none, minutesRaw := 75, secondsRaw := 5 } (-3)
  ⟨h.2.1 rfl (by norm_num), h.2.2.2 (by norm_num)⟩

/-! ## Embedding Indexer and Retriever

The backend RAG service is not part of the repository snapshot; the
operations below are modelled from the spec (sections 4.2-4.4) and the
backend README under `src/podSearch-backend/RAG_README.md`, with the HTTP
shapes taken from `types/api.ts`. -/

/-- `TranscriptChunk` from spec section 3. -/
structure TranscriptChunk where
  text : String
  start_timestamp : ℚ
  source_segment_index : ℕ
  deriving DecidableEq, Repr

/-- An embedding vector. -/
abbrev Embedding := List ℚ

/-- The vector index: named collections of `(embedding, chunk)` pairs. -/
abbrev VectorStore := List (String × List (Embedding × TranscriptChunk))

/-- The deterministic collection name `transcript_{video_id}`
(RAG_README.md, Technical Details). -/
def collectionName (video_id : String) : String := "transcript_" ++ video_id

/-- Replace (or create) the named collection, all-or-nothing. -/
def replaceCollection (store : VectorStore) (name : String)
    (entries : List (Embedding × TranscriptChunk)) : VectorStore :=
  (name, entries) :: store.filter (fun p => p.1 ≠ name)

/-- Modelled from the spec: the Embedding Indexer operation
`process(video_id, chunks, overwrite)` (spec section 4.2) is not in `src/`.
With `overwrite = false` and an existing collection it is an idempotent
no-op returning an "already processed" signal; the wire shape of that signal
is fixed by its only callers in `src/` (`processTranscriptForRAG` in both
workspace pages), whose dedicated branch fires on `success = false` with an
`error` string containing `already processed`.  Otherwise the collection is
rebuilt whole from one embedding per chunk. -/
def process (store : VectorStore) (embed : String → Embedding)
    (video_id : String) (chunks : List TranscriptChunk) (overwrite : Bool) :
    VectorStore × RAGProcessResponse :=
  let name := collectionName video_id
  match store.lookup name, overwrite with
  | some _, false =>
      (store,
       { success := false, video_id := video_id, chunks_stored := none,
         collection_name := some name,
         error := some "Video already processed. Use overwrite=true to reprocess." })
  | _, _ =>
      (replaceCollection store name (chunks.map fun c => (embed c.text, c)),
       { success := true, video_id := video_id,
         chunks_stored := some chunks.length, collection_name := some name,
         error := none })

/-- Whether `pat` occurs as a contiguous run inside the character list. -/
def hasInfix (pat : List Char) : List Char → Bool
  | [] => pat.isEmpty
  | c :: rest => List.isPrefixOf pat (c :: rest) || hasInfix pat rest

/-- JavaScript `s.includes(pat)`. -/
def strContains (s pat : String) : Bool := hasInfix pat.data s.data

/-- JavaScript `o || d` on an optional string (an empty string is falsy). -/
def jsOr (o : Option String) (d : String) : String :=
  match o with
  | some s => if s = "" then d else s
  | none => d

/-- What `processTranscriptForRAG` does with the process response: either
the workspace becomes ready (with a success toast) or the error is thrown. -/
inductive ProcessOutcome where
  | ready (toast : String)
  | failed (message : String)
  deriving DecidableEq, Repr

/-- The response handling of `processTranscriptForRAG`
(`src/podsearch-frontend/src/app/workspace/[videoId]/page.tsx` lines
173-185): a successful response and a failed response whose error mentions
`already processed` both set `ragReady`/`isProcessed` and show a success
toast; anything else is thrown. -/
def handleProcessResponse (r : RAGProcessResponse) : ProcessOutcome :=
  if r.success then ProcessOutcome.ready "Video processed successfully!"
  else if strContains (r.error.getD "") "already processed" then
    ProcessOutcome.ready "Video is ready for chat!"
  else ProcessOutcome.failed (jsOr r.error "Failed to process transcript")

/-- Retrieval ranking: descending relevance score, ties broken by ascending
segment index (spec section 4.3). -/
def rankLE (a b : RAGSearchResult) : Prop :=
  b.relevance_score < a.relevance_score
    ∨ (a.relevance_score = b.relevance_score ∧ a.segment_index ≤ b.segment_index)

instance : DecidableRel rankLE := fun a b => by
  unfold rankLE; exact inferInstance

/-- Modelled from the spec: the Retriever operation
`search(video_id, query, top_k)` (spec section 4.3) is not in `src/`.  The
query is embedded with the index-time embedding function, each stored chunk
is scored by the (external) similarity measure `sim` clamped to `[0,1]`, and
up to `top_k` results are returned in rank order; a missing collection fails
with `CollectionNotFound`. -/
def search (store : VectorStore) (embed : String → Embedding)
    (sim : Embedding → Embedding → ℚ) (video_id query : String)
    (top_k : ℕ) : Except String (List RAGSearchResult) :=
  match store.lookup (collectionName video_id) with
  | none => Except.error "CollectionNotFound"
  | some entries =>
      let qv := embed query
      let scored := entries.map (fun p =>
        ({ text := p.2.text, timestamp := some p.2.start_timestamp,
           segment_index := p.2.source_segment_index,
           relevance_score := clamp01 (sim qv p.1),
           metadata := [] } : RAGSearchResult))
      Except.ok ((scored.insertionSort rankLE).take top_k)

/-- The generative backend as seen by `generate`: absent (no API key), or
available, in which case a call either returns an answer or fails
(error/timeout), modelled by `Option`. -/
inductive GenBackend where
  | absent
  | available (respond : String → List RAGSearchResult → Option String)

/-- The deterministic retrieval-only fallback answer: the retrieved chunk
texts concatenated (spec section 4.4). -/
def fallbackAnswer (results : List RAGSearchResult) : String :=
  String.intercalate "\n\n" (results.map (fun r => r.text))

/-- Modelled from the spec: the Answer Generator operation
`generate(video_id, query, top_k)` (spec section 4.4) is not in `src/`.  It
calls the Retriever; on retrieval failure the request fails.  Otherwise,
with a configured backend a successful generation gives a grounded answer
with `retrieval_only = false`, while an absent backend or a caught
generation failure degrades to the retrieval-only fallback; the `sources`
list is the Retriever's output in every successful branch. -/
def generate (store : VectorStore) (embed : String → Embedding)
    (sim : Embedding → Embedding → ℚ) (backend : GenBackend)
    (video_id query : String) (top_k : ℕ) : RAGGenerateResponse :=
  match search store embed sim video_id query top_k with
  | Except.error e =>
      { success := false, query := query, video_id := video_id, answer := "",
        sources := [], retrieval_only := false, error := some e }
  | Except.ok results =>
      match backend with
      | GenBackend.absent =>
          { success := true, query := query, video_id := video_id,
            answer := fallbackAnswer results, sources := results,
            retrieval_only := true, error := none }
      | GenBackend.available respond =>
          match respond query results with
          | some ans =>
              { success := true, query := query, video_id := video_id,
                answer := ans, sources := results, retrieval_only := false,
                error := none }
          | none =>
              { success := true, query := query, video_id := video_id,
                answer := fallbackAnswer results, sources := results,
                retrieval_only := true, error := none }

/-- A processed chunk used in concrete instances below. -/
def demoChunk : TranscriptChunk :=
  { text := "AI safety is important.", start_timestamp := 0,
    source_segment_index := 0 }

/-- A store in which video `v1` is already processed. -/
def demoStore : VectorStore := [(collectionName "v1", [([1], demoChunk)])]

/-- A concrete embedding function for the instances below. -/
def demoEmbed : String → Embedding := fun _ => [1]

/-- A concrete similarity measure for the instances below. -/
def demoSim : Embedding → Embedding → ℚ := fun _ _ => 1

/-- C1 counterexample: on an already-processed video (the collection exists),
`process` with `overwrite = false` answers with `success = false` — the
already-processed signal is not delivered as `success = true`. -/
theorem process_alreadyProcessed_not_success :
    (demoStore.lookup (collectionName "v1")).isSome = true
    ∧ (process demoStore demoEmbed "v1" [demoChunk] false).2.success = false := by
  exact ⟨rfl, rfl⟩

/-- C1 amended: `process` with `overwrite = false` on an existing collection
leaves the store unchanged and returns `success = false` with an error
message containing `already processed`, which the workspace caller maps to
the ready state with a success toast (treated as success, not an error). -/
theorem process_alreadyProcessed_noop_ready
    (store : VectorStore) (embed : String → Embedding) (video_id : String)
    (chunks : List TranscriptChunk) (col : List (Embedding × TranscriptChunk))
    (h : store.lookup (collectionName video_id) = some col) :
    (process store embed video_id chunks false).1 = store
    ∧ (process store embed video_id chunks false).2.success = false
    ∧ strContains ((process store embed video_id chunks false).2.error.getD "")
        "already processed" = true
    ∧ handleProcessResponse (process store embed video_id chunks false).2
        = ProcessOutcome.ready "Video is ready for chat!" := by
  have hp : process store embed video_id chunks false =
      (store,
       { success := false, video_id := video_id, chunks_stored := none,
         collection_name := some (collectionName video_id),
         error := some "Video already processed. Use overwrite=true to reprocess." }) := by
    simp only [process, h]
  rw [hp]
  exact ⟨rfl, rfl, rfl, rfl⟩

theorem process_alreadyProcessed_noop_ready_witness :
    (process demoStore demoEmbed "v1" [demoChunk] false).1 = demoStore
    ∧ handleProcessResponse (process demoStore demoEmbed "v1" [demoChunk] false).2
        = ProcessOutcome.ready "Video is ready for chat!" :=
  have h := process_alreadyProcessed_noop_ready demoStore demoEmbed "v1"
    [demoChunk] [([1], demoChunk)] rfl
  ⟨h.1, h.2.2.2⟩

/-- C2: whenever retrieval succeeds, `generate` reports `success = true`
with `sources` equal to the Retriever's output, and an absent or failing
generative backend only flips the response into retrieval-only mode — a
generation failure never surfaces as a failed request. -/
theorem generate_degrades_on_generation_failure
    (store : VectorStore) (embed : String → Embedding)
    (sim : Embedding → Embedding → ℚ) (backend : GenBackend)
    (video_id query : String) (top_k : ℕ) (results : List RAGSearchResult)
    (h : search store embed sim video_id query top_k = Except.ok results) :
    (generate store embed sim backend video_id query top_k).success = true
    ∧ (generate store embed sim backend video_id query top_k).sources = results
    ∧ ((backend = GenBackend.absent
        ∨ ∃ respond, backend = GenBackend.available respond
            ∧ respond query results = none) →
        (generate store embed sim backend video_id query top_k).retrieval_only
          = true) := by
  cases backend with
  | absent =>
    have hg : generate store embed sim GenBackend.absent video_id query top_k =
        { success := true, query := query, video_id := video_id,
          answer := fallbackAnswer results, sources := results,
          retrieval_only := true, error := none } := by
      simp only [generate, h]
    rw [hg]
    exact ⟨rfl, rfl, fun _ => rfl⟩
  | available respond =>
    cases hr : respond query results with
    | some ans =>
      have hg : generate store embed sim (GenBackend.available respond)
          video_id query top_k =
          { success := true, query := query, video_id := video_id,
            answer := ans, sources := results, retrieval_only := false,
            error := none } := by
        simp only [generate, h, hr]
      rw [hg]
      refine ⟨rfl, rfl, ?_⟩
      rintro (habs | ⟨f, hf, hnone⟩)
      · exact GenBackend.noConfusion habs
      · cases hf
        rw [hr] at hnone
        exact Option.noConfusion hnone
    | none =>
      have hg : generate store embed sim (GenBackend.available respond)
          video_id query top_k =
          { success := true, query := query, video_id := video_id,
            answer := fallbackAnswer results, sources := results,
            retrieval_only := true, error := none } := by
        simp only [generate, h, hr]
      rw [hg]
      exact ⟨rfl, rfl, fun _ => rfl⟩

/-- A generative backend that is configured but always fails. -/
def demoFailBackend : GenBackend := GenBackend.available (fun _ _ => none)

/-- The single retrieval result of `search demoStore demoEmbed demoSim "v1" _ 1`. -/
def demoResult : RAGSearchResult :=
  { text := "AI safety is important.", timestamp := some 0, segment_index := 0,
    relevance_score := clamp01 1, metadata := [] }

/-- The retrieval output of `search demoStore demoEmbed demoSim "v1" _ 1`. -/
def demoResults : List RAGSearchResult := [demoResult]

theorem generate_degrades_witness :
    (generate demoStore demoEmbed demoSim demoFailBackend "v1" "q" 1).success = true
    ∧ (generate demoStore demoEmbed demoSim demoFailBackend "v1" "q" 1).retrieval_only
        = true :=
  have h := generate_degrades_on_generation_failure demoStore demoEmbed demoSim
    demoFailBackend "v1" "q" 1 demoResults rfl
  ⟨h.1, h.2.2 (Or.inr ⟨fun _ _ => none, rfl, rfl⟩)⟩

/-! ## Fact Verification Agent — the Scoring step

The fact-verification service is not in `src/` (only its README, its HTTP
types and its callers are); the Scoring step of the per-claim state machine
is modelled from spec section 4.6. -/

/-- The stance of one collected source excerpt toward the claim
(entailment/contradiction style scoring, spec section 4.6). -/
inductive Stance where
  | supports
  | contradicts
  | neutral
  deriving DecidableEq, Repr

/-- One piece of collected evidence: a source together with its scored
stance toward the claim. -/
structure Evidence where
  source : VerificationSource
  stance : Stance
  deriving DecidableEq, Repr

/-- A source excerpt as returned by an evidence-source tool, before the
Collecting step normalises it: the raw relevance score is an arbitrary
rational. -/
structure RawSource where
  title : String
  url : String
  source_type : SourceType
  rawRelevance : ℚ
  excerpt : String
  publication_date : Option String
  author : Option String
  deriving DecidableEq, Repr

/-- Modelled from the spec: the Collecting step turns a tool response into a
`VerificationSource`, with the relevance score clamped into `[0,1]`
(spec section 3 invariants). -/
def mkVerificationSource (raw : RawSource) : VerificationSource :=
  { title := raw.title, url := raw.url, source_type := raw.source_type,
    relevance_score := clamp01 raw.rawRelevance, excerpt := raw.excerpt,
    publication_date := raw.publication_date, author := raw.author }

/-- Modelled from the spec: the evidence list assembled from the tool
responses that survived the Collecting step, paired with their stances. -/
def collectEvidence (raws : List (RawSource × Stance)) : List Evidence :=
  raws.map (fun p => { source := mkVerificationSource p.1, stance := p.2 })

/-- The usable evidence: sources that returned a non-empty excerpt
(spec section 4.6, "zero sources returned usable excerpts"). -/
def usableSources (evidence : List Evidence) : List Evidence :=
  evidence.filter (fun e => e.source.excerpt ≠ "")

/-- The relevance threshold above which a source participates in the
majority-weighted vote (spec section 4.6). -/
def relevanceThreshold : ℚ := 1/2

/-- The total relevance weight of the usable sources holding the given
stance, counting only sources at or above the relevance threshold. -/
def stanceWeight (st : Stance) (evidence : List Evidence) : ℚ :=
  ((evidence.filter (fun e =>
      e.stance = st ∧ relevanceThreshold ≤ e.source.relevance_score)).map
    (fun e => e.source.relevance_score)).sum

/-- The fixed low confidence floor used for the zero-usable-sources verdict
(spec section 4.6 prescribes a value in [0.0, 0.2]). -/
def unclearFloor : ℚ := 1/10

/-- Mean relevance of a list of evidence (0 for an empty list). -/
def meanRelevance (l : List Evidence) : ℚ :=
  if l.length = 0 then 0
  else (l.map (fun e => e.source.relevance_score)).sum / l.length

/-- Modelled from the spec: the pure Scoring step of the Fact Verification
Agent (spec section 4.6).  Zero usable sources yield `Unclear` at the fixed
confidence floor.  Otherwise the verdict is chosen by majority-weighted
agreement: equal support and contradiction weight defaults to
`Partially Verified` (the tie-break policy); a strict support majority is
`Verified` when the contradiction weight is zero (strong, consistent
support) and `Partially Verified` otherwise (mixed support); symmetrically a
strict contradiction majority is `False` only when consistent.  The exact
confidence formula is an underspecified tunable (spec section 9); the model
uses the mean relevance of the usable sources, clamped to `[0,1]`
(spec section 4.6). -/
def scoreClaim (evidence : List Evidence) : VerificationStatus × ℚ :=
  let usable := usableSources evidence
  if usable.isEmpty then (VerificationStatus.unclear, unclearFloor)
  else
    let supportW := stanceWeight Stance.supports usable
    let contraW := stanceWeight Stance.contradicts usable
    let verdict :=
      if supportW = contraW then VerificationStatus.partiallyVerified
      else if contraW < supportW then
        (if contraW = 0 then VerificationStatus.verified
         else VerificationStatus.partiallyVerified)
      else
        (if supportW = 0 then VerificationStatus.falseClaim
         else VerificationStatus.partiallyVerified)
    (verdict, clamp01 (meanRelevance usable))

/-- Modelled from the spec: the `Done` state packages the Scoring output as
a `ClaimVerification` (spec sections 4.6 and 3), with the usable sources as
the citation list and a human-readable reasoning trace. -/
def verifyClaim (claim : String) (evidence : List Evidence) (date : String) :
    ClaimVerification :=
  { claim := claim,
    status := (scoreClaim evidence).1,
    confidence := (scoreClaim evidence).2,
    explanation :=
      if (usableSources evidence).isEmpty then
        "Insufficient evidence was found to verify this claim."
      else
        "Assessed against " ++ toString (usableSources evidence).length
          ++ " usable sources.",
    sources := (usableSources evidence).map (fun e => e.source),
    verification_date := date,
    agent_reasoning :=
      "Analyzed " ++ toString evidence.length
        ++ " sources using multi-tool search approach." }

/-- The per-claim pipeline from raw tool responses to a `ClaimVerification`:
Collecting then Scoring then Done. -/
def verifyClaimPipeline (claim : String) (raws : List (RawSource × Stance))
    (date : String) : ClaimVerification :=
  verifyClaim claim (collectEvidence raws) date

theorem verificationStatus_cases (v : VerificationStatus) :
    v = VerificationStatus.verified ∨ v = VerificationStatus.partiallyVerified
      ∨ v = VerificationStatus.falseClaim ∨ v = VerificationStatus.unclear := by
  cases v
  · exact Or.inl rfl
  · exact Or.inr (Or.inl rfl)
  · exact Or.inr (Or.inr (Or.inl rfl))
  · exact Or.inr (Or.inr (Or.inr rfl))

/-- C3: every `ClaimVerification` produced by verification carries one of
the four enumerated verdicts, and zero usable sources always yield
`Unclear`. -/
theorem verifyClaim_verdict_enumerated_and_unclear_on_empty
    (claim date : String) (evidence : List Evidence) :
    ((verifyClaim claim evidence date).status = VerificationStatus.verified
      ∨ (verifyClaim claim evidence date).status = VerificationStatus.partiallyVerified
      ∨ (verifyClaim claim evidence date).status = VerificationStatus.falseClaim
      ∨ (verifyClaim claim evidence date).status = VerificationStatus.unclear)
    ∧ (usableSources evidence = [] →
        (verifyClaim claim evidence date).status = VerificationStatus.unclear) := by
  constructor
  · exact verificationStatus_cases _
  · intro h
    show (scoreClaim evidence).1 = VerificationStatus.unclear
    unfold scoreClaim
    rw [h]
    rfl

theorem verifyClaim_unclear_on_empty_witness :
    (verifyClaim "The Earth is flat" [] "2024-01-15").status
      = VerificationStatus.unclear :=
  (verifyClaim_verdict_enumerated_and_unclear_on_empty
    "The Earth is flat" "2024-01-15" []).2 rfl

/-- C6 counterexample: the empty evidence list has supporting and
contradicting weight both zero — numerically equal — yet the Scoring step
returns `Unclear` (as the zero-usable-sources rule requires), not
`Partially Verified`. -/
theorem scoreClaim_tie_empty_counterexample :
    stanceWeight Stance.supports (usableSources [])
        = stanceWeight Stance.contradicts (usableSources [])
    ∧ (scoreClaim []).1 = VerificationStatus.unclear
    ∧ (scoreClaim []).1 ≠ VerificationStatus.partiallyVerified :=
  ⟨rfl, rfl, by decide⟩

/-- C6 amended: for every evidence list with at least one usable source,
equal supporting and contradicting weight yields `Partially Verified` —
never `Verified` and never `False`; with zero usable sources the verdict is
`Unclear` instead. -/
theorem scoreClaim_tie_partiallyVerified
    (evidence : List Evidence) (h : usableSources evidence ≠ [])
    (hw : stanceWeight Stance.supports (usableSources evidence)
        = stanceWeight Stance.contradicts (usableSources evidence)) :
    (scoreClaim evidence).1 = VerificationStatus.partiallyVerified
    ∧ (scoreClaim evidence).1 ≠ VerificationStatus.verified
    ∧ (scoreClaim evidence).1 ≠ VerificationStatus.falseClaim := by
  have hne : (usableSources evidence).isEmpty = false := by
    cases hu : usableSources evidence
    · exact absurd hu h
    · rfl
  have hmain : (scoreClaim evidence).1 = VerificationStatus.partiallyVerified := by
    simp [scoreClaim, hne, hw]
  refine ⟨hmain, ?_, ?_⟩
  · rw [hmain]; decide
  · rw [hmain]; decide

/-- A concrete verification source used in the instances below. -/
def demoSource : VerificationSource :=
  { title := "NASA - Great Wall of China", url := "https://nasa.gov/greatwall",
    source_type := SourceType.searchEngine, relevance_score := 9/10,
    excerpt := "The Great Wall is not visible from space.",
    publication_date := some "2023-05-15", author := some "NASA" }

/-- A single usable but neutral piece of evidence: both stance weights are
zero, hence numerically tied. -/
def demoTieEvidence : List Evidence :=
  [{ source := demoSource, stance := Stance.neutral }]

theorem scoreClaim_tie_witness :
    (scoreClaim demoTieEvidence).1 = VerificationStatus.partiallyVerified :=
  (scoreClaim_tie_partiallyVerified demoTieEvidence (by decide) (by decide)).1

theorem scoreClaim_confidence_in_unit (evidence : List Evidence) :
    0 ≤ (scoreClaim evidence).2 ∧ (scoreClaim evidence).2 ≤ 1 := by
  have hcase : (scoreClaim evidence).2 = unclearFloor
      ∨ (scoreClaim evidence).2 = clamp01 (meanRelevance (usableSources evidence)) := by
    unfold scoreClaim
    simp only []
    split
    · exact Or.inl rfl
    · exact Or.inr rfl
  rcases hcase with h | h <;> rw [h]
  · exact ⟨by norm_num [unclearFloor], by norm_num [unclearFloor]⟩
  · exact ⟨clamp01_nonneg _, clamp01_le_one _⟩

theorem generate_sources_of_search_ok
    (store : VectorStore) (embed : String → Embedding)
    (sim : Embedding → Embedding → ℚ) (backend : GenBackend)
    (video_id query : String) (top_k : ℕ) (results : List RAGSearchResult)
    (h : search store embed sim video_id query top_k = Except.ok results) :
    (generate store embed sim backend video_id query top_k).sources = results := by
  cases backend with
  | absent => simp only [generate, h]
  | available respond =>
    cases hr : respond query results with
    | some ans => simp only [generate, h, hr]
    | none => simp only [generate, h, hr]

theorem search_ok_relevance_in_unit
    (store : VectorStore) (embed : String → Embedding)
    (sim : Embedding → Embedding → ℚ) (video_id query : String) (top_k : ℕ)
    (results : List RAGSearchResult)
    (h : search store embed sim video_id query top_k = Except.ok results) :
    ∀ r ∈ results, 0 ≤ r.relevance_score ∧ r.relevance_score ≤ 1 := by
  intro r hr
  cases hl : store.lookup (collectionName video_id) with
  | none =>
    rw [search, hl] at h
    exact Except.noConfusion h
  | some entries =>
    rw [search, hl] at h
    simp only [Except.ok.injEq] at h
    rw [← h] at hr
    have h1 := List.mem_of_mem_take hr
    have h2 := (List.mem_insertionSort rankLE).mp h1
    obtain ⟨p, hp, hpe⟩ := List.mem_map.mp h2
    rw [← hpe]
    exact ⟨clamp01_nonneg _, clamp01_le_one _⟩

/-- C4: every relevance score produced by retrieval (`search` results and
`generate` sources) and by verification (`ClaimVerification.sources`) lies
in `[0,1]`, and so does every verification confidence. -/
theorem relevance_and_confidence_in_unit_interval
    (store : VectorStore) (embed : String → Embedding)
    (sim : Embedding → Embedding → ℚ) (backend : GenBackend)
    (video_id query claim date : String) (top_k : ℕ)
    (raws : List (RawSource × Stance)) :
    (∀ results, search store embed sim video_id query top_k = Except.ok results →
      ∀ r ∈ results, 0 ≤ r.relevance_score ∧ r.relevance_score ≤ 1)
    ∧ (∀ r ∈ (generate store embed sim backend video_id query top_k).sources,
        0 ≤ r.relevance_score ∧ r.relevance_score ≤ 1)
    ∧ (∀ s ∈ (verifyClaimPipeline claim raws date).sources,
        0 ≤ s.relevance_score ∧ s.relevance_score ≤ 1)
    ∧ 0 ≤ (verifyClaimPipeline claim raws date).confidence
    ∧ (verifyClaimPipeline claim raws date).confidence ≤ 1 := by
  refine ⟨fun results h => search_ok_relevance_in_unit store embed sim video_id
    query top_k results h, ?_, ?_, ?_, ?_⟩
  · intro r hr
    cases hs : search store embed sim video_id query top_k with
    | error e =>
      have : (generate store embed sim backend video_id query top_k).sources = [] := by
        simp only [generate, hs]
      rw [this] at hr
      exact absurd hr (List.not_mem_nil r)
    | ok results =>
      rw [generate_sources_of_search_ok store embed sim backend video_id query
        top_k results hs] at hr
      exact search_ok_relevance_in_unit store embed sim video_id query top_k
        results hs r hr
  · intro s hs
    obtain ⟨e, he, hes⟩ := List.mem_map.mp hs
    have he' : e ∈ collectEvidence raws := List.mem_of_mem_filter he
    unfold collectEvidence at he'
    obtain ⟨p, hp, hpe⟩ := List.mem_map.mp he'
    rw [← hes, ← hpe]
    exact ⟨clamp01_nonneg _, clamp01_le_one _⟩
  · exact (scoreClaim_confidence_in_unit _).1
  · exact (scoreClaim_confidence_in_unit _).2

/-- A raw tool response used in the instances below. -/
def demoRaw : RawSource :=
  { title := "NASA - Great Wall of China", url := "https://nasa.gov/greatwall",
    source_type := SourceType.searchEngine, rawRelevance := 9/10,
    excerpt := "The Great Wall is not visible from space.",
    publication_date := some "2023-05-15", author := some "NASA" }

/-- A concrete collected tool-response list. -/
def demoRaws : List (RawSource × Stance) := [(demoRaw, Stance.contradicts)]

theorem relevance_and_confidence_witness :
    (0 ≤ (verifyClaimPipeline "The Earth is flat" demoRaws "2024").confidence
      ∧ (verifyClaimPipeline "The Earth is flat" demoRaws "2024").confidence ≤ 1)
    ∧ (0 ≤ demoResult.relevance_score ∧ demoResult.relevance_score ≤ 1) :=
  have h := relevance_and_confidence_in_unit_interval demoStore demoEmbed demoSim
    demoFailBackend "v1" "q" "The Earth is flat" "2024" 1 demoRaws
  ⟨⟨h.2.2.2.1, h.2.2.2.2⟩, h.1 demoResults rfl demoResult (by simp [demoResults])⟩

/-! ## HTTP interface shapes and caller-side request construction -/

/-- The `/verify` request built by `factCheckResponse`
(`src/podsearch-frontend/src/app/workspace/[videoId]/page.tsx` lines
260-267): the generated answer as the single claim, the video id, the
retrieved source texts joined by spaces as context, `search_depth: 3`, and
both `include_academic` and `include_news` set. -/
def mkFactCheckRequest (answer videoId : String)
    (sources : List RAGSearchResult) : FactVerificationRequest :=
  { claims := [answer], video_id := some videoId,
    context := some (String.intercalate " " (sources.map (fun s => s.text))),
    search_depth := 3, include_academic := true, include_news := true }

/-- C5: a `POST /verify` request is exactly a tuple of the fields `claims`,
`video_id?`, `context?`, `search_depth`, `include_academic`, `include_news`,
its response exactly `success`, `verifications`, `total_claims`,
`processing_time`, `error?`, and the workspace caller populates the request
fields as documented. -/
theorem verify_interface_shapes (answer videoId : String)
    (sources : List RAGSearchResult) (req : FactVerificationRequest)
    (resp : FactVerificationResponse) :
    req = { claims := req.claims, video_id := req.video_id,
            context := req.context, search_depth := req.search_depth,
            include_academic := req.include_academic,
            include_news := req.include_news }
    ∧ resp = { success := resp.success, verifications := resp.verifications,
               total_claims := resp.total_claims,
               processing_time := resp.processing_time, error := resp.error }
    ∧ (mkFactCheckRequest answer videoId sources).claims = [answer]
    ∧ (mkFactCheckRequest answer videoId sources).video_id = some videoId
    ∧ (mkFactCheckRequest answer videoId sources).context
        = some (String.intercalate " " (sources.map (fun s => s.text)))
    ∧ (mkFactCheckRequest answer videoId sources).search_depth = 3
    ∧ (mkFactCheckRequest answer videoId sources).include_academic = true
    ∧ (mkFactCheckRequest answer videoId sources).include_news = true :=
  ⟨rfl, rfl, rfl, rfl, rfl, rfl, rfl, rfl⟩

/-- The generate request of `handleChatSubmit` in
`src/podsearch-frontend/src/app/workspace/[videoId]/page.tsx` lines
228-231: the trimmed user message with `top_k: 100`. -/
def frontendChatRequest (userMessage : String) : RAGGenerateRequest :=
  { query := userMessage, top_k := 100 }

/-- The generate request of `handleChatSubmit` in
`src/client/src/app/workspace/[videoId]/page.tsx` lines 251-254: the trimmed
user message with `top_k: 100`. -/
def clientChatRequest (userMessage : String) : RAGGenerateRequest :=
  { query := userMessage, top_k := 100 }

/-- C7: both workspace callers issue every query-time generate call with
`top_k = 100`, which satisfies the Retriever precondition `top_k ≥ 1`. -/
theorem workspace_generate_top_k (userMessage : String) :
    (frontendChatRequest userMessage).top_k = 100
    ∧ (clientChatRequest userMessage).top_k = 100
    ∧ 1 ≤ (frontendChatRequest userMessage).top_k
    ∧ 1 ≤ (clientChatRequest userMessage).top_k :=
  ⟨rfl, rfl, by norm_num [frontendChatRequest], by norm_num [clientChatRequest]⟩

end PodSearch
